import Mathlib

/-!
Shallow embedding of the situation-report aggregation pipeline of
`hnl_fire_data/firetallytools.py`.  Pandas dataframes are modelled as lists
of typed rows; missing values (NaN) are `Option`; Python exceptions are an
explicit error type; acreage values are rationals.
-/

namespace FireTally

/-- The fixed code-to-canonical-name table `PROTECTING_OFFICES`. -/
def PROTECTING_OFFICES : List (String × String) :=
  [("MSS", "Mat-Su Area"),
   ("TNF", "Tongass N.F."),
   ("UYD", "Upper Yukon Zone"),
   ("KKS", "Kenai-Kodiak Area"),
   ("CRS", "Copper River Area"),
   ("TAD", "Tanana Zone"),
   ("DAS", "Delta Area"),
   ("FAS", "Fairbanks Area"),
   ("MID", "Military Zone"),
   ("CGF", "Chugach N.F."),
   ("TAS", "Tok Area"),
   ("GAD", "Galena Zone"),
   ("SWS", "Southwest Area")]

/-- Python dict lookup on `PROTECTING_OFFICES`; `none` models a `KeyError`. -/
def officeLookup (k : String) : Option String :=
  (PROTECTING_OFFICES.find? (fun p => p.1 == k)).map (fun p => p.2)

/-- The index returned by `s.find` for the character `(` in `extract_zone`;
`none` models the Python result `-1`. -/
def parenIdx (s : String) : Option Nat :=
  s.toList.findIdx? (fun c => c == '(')

/-- The slice `s[idx+1:idx+4]` with `idx = s.find` of `(`: when no `(` is
present, `idx = -1` and the slice degenerates to the first three characters. -/
def codeCandidate (s : String) : String :=
  String.mk ((s.toList.drop ((parenIdx s).elim 0 (fun i => i + 1))).take 3)

/-- `extract_zone` (firetallytools.py lines 64 to 73): look the parenthesized
candidate up as a code, then the whole text as a code, else pass the raw text
through unchanged. -/
def extract_zone (po : String) : String :=
  match officeLookup (codeCandidate po) with
  | some name => name
  | none =>
    match officeLookup po with
    | some name => name
    | none => po

/-- The reverse dict `protecting_offices_rev` built in `assemble_dataframe`,
with the extra entry mapping the n/a sentinel to itself. -/
def protecting_offices_rev : List (String × String) :=
  PROTECTING_OFFICES.map (fun p => (p.2, p.1)) ++ [("n/a", "n/a")]

/-- `Series.map` through the reverse dict: keys absent from the dict are
mapped to NaN, modelled as `none`. -/
def revLookup (name : String) : Option String :=
  (protecting_offices_rev.find? (fun p => p.1 == name)).map (fun p => p.2)

/-- The zone-normalization step of `assemble_dataframe` (lines 87 to 93) on
one raw protecting-office cell: fill NaN with the n/a sentinel, apply
`extract_zone`, then map the result through the reverse dict.  Result:
(normalized zone label, zone code label). -/
def normalizeOffice (raw : Option String) : String × Option String :=
  let filled := raw.getD "n/a"
  let zone := extract_zone filled
  (zone, revLookup zone)

/-- Python exceptions the embedded functions can raise. -/
inductive PyError
  | unboundLocal
  | fileNotFound (path : String)
  | requestException
  | valueErrorNoObjects
  | keyError (key : String)
  | typeError
deriving DecidableEq, Repr

/-- One row of a table handed to `aggregate_by_day_region`, projected to its
grouping-key cells (in the column order of `GROUPINGS[region]`) together with
the Acres cell.  A `none` cell is a NaN. -/
structure KRow where
  key : List (Option String)
  acres : Option ℚ
deriving DecidableEq, Repr

/-- The module-level `GROUPINGS` dict: lookup is `none` on a missing key. -/
def GROUPINGS (region : String) : Option (List String) :=
  if region == "PSA" then some ["reportdate", "PSA_NAME", "NAT_CODE"]
  else if region == "Zone" then
    some ["reportdate", "Protecting Office", "Protecting Office Label"]
  else none

/-- A grouping key is usable by `groupby` only when no cell is NaN
(pandas `groupby` keeps its default `dropna=True`). -/
def seqKey : List (Option String) → Option (List String)
  | [] => some []
  | none :: _ => none
  | some s :: rest => (seqKey rest).map (fun l => s :: l)

/-- The non-NaN grouping keys occurring in a table, with multiplicity. -/
def validKeys (rows : List KRow) : List (List String) :=
  rows.filterMap (fun r => seqKey r.key)

/-- A string as its list of Unicode code points: Python compares strings
lexicographically by code point. -/
def strVal (s : String) : List Nat :=
  s.toList.map Char.toNat

/-- A grouping key as nested code-point lists, giving the lexicographic
tuple order pandas sorts group keys by. -/
def kval (k : List String) : List (List Nat) :=
  k.map strVal

/-- The sort order on grouping keys. -/
def keyR : List String → List String → Prop :=
  fun a b => kval a ≤ kval b

instance : DecidableRel keyR :=
  fun a b => decidable_of_iff (kval a ≤ kval b) Iff.rfl

instance : IsTotal (List String) keyR :=
  ⟨fun a b => le_total (kval a) (kval b)⟩

instance : IsTrans (List String) keyR :=
  ⟨fun _ _ _ h1 h2 => le_trans h1 h2⟩

/-- The group keys of `groupby(...).sum().reset_index()`: each distinct
non-NaN key once, in sorted order (pandas `groupby` keeps `sort=True`). -/
def groupKeys (rows : List KRow) : List (List String) :=
  (validKeys rows).dedup.insertionSort keyR

/-- The Acres sum of one group: pandas `sum()` skips NaN and sums an
empty or all-NaN group to `0`. -/
def groupSum (rows : List KRow) (k : List String) : ℚ :=
  ((rows.filter (fun r => decide (seqKey r.key = some k))).map
    (fun r => r.acres.getD 0)).sum

/-- `groupby(key)['Acres'].sum().reset_index()` as key/sum pairs. -/
def groupbySum (rows : List KRow) : List (List String × ℚ) :=
  (groupKeys rows).map (fun k => (k, groupSum rows k))

/-- `dailyarea_agg['Acres'].replace(0, pd.NA)`. -/
def replaceZero (t : List (List String × ℚ)) : List (List String × Option ℚ) :=
  t.map (fun p => (p.1, if p.2 = 0 then none else some p.2))

/-- `dailyarea_agg.dropna()`: the grouped keys contain no NaN, so exactly the
rows whose Acres became NaN are dropped. -/
def dropnaRows (t : List (List String × Option ℚ)) : List KRow :=
  t.filterMap (fun p => p.2.map (fun q => KRow.mk (p.1.map some) (some q)))

/-- The group/sum/replace-zero/dropna pipeline shared by both region modes. -/
def aggCore (rows : List KRow) : List KRow :=
  dropnaRows (replaceZero (groupbySum rows))

deriving instance DecidableEq for Except

/-- What `aggregate_by_day_region` leaves behind: its printed lines and
either the aggregated table or a raised exception. -/
structure AggOutcome where
  printed : List String
  result : Except PyError (List KRow)
deriving DecidableEq, Repr

/-- The message printed when the region mode is not a `GROUPINGS` key. -/
def unknownRegionMsg (region : String) : String :=
  "Grouping by " ++ region ++ " is unknown. Try one of : PSA, Zone"

/-- `aggregate_by_day_region` (lines 115 to 125).  On an unknown region the
`KeyError` from `GROUPINGS[region]` is caught and the message printed, but
execution then falls through to the `replace` line, where the local
`dailyarea_agg` was never assigned, so Python raises `UnboundLocalError`. -/
def aggregate_by_day_region (rows : List KRow) (region : String) : AggOutcome :=
  match GROUPINGS region with
  | some _ => ⟨[], .ok (aggCore rows)⟩
  | none => ⟨[unknownRegionMsg region], .error .unboundLocal⟩

/-- One row of the assembled, normalized current-year table
(`assemble_dataframe` output). -/
structure UpdateRow where
  reportdate : String
  protectingOffice : String
  protectingOfficeLabel : Option String
  latitude : ℚ
  longitude : ℚ
  acres : Option ℚ
deriving DecidableEq, Repr

/-- The Zone-mode column projection `updatesDF[GROUPINGS['Zone'] + ['Acres']]`. -/
def zoneKRow (r : UpdateRow) : KRow :=
  ⟨[some r.reportdate, some r.protectingOffice, r.protectingOfficeLabel], r.acres⟩

/-! ### `download_reports` (lines 32 to 62) -/

/-- The outcome of one `requests.get`: an HTTP status code, or a raised
`requests` exception such as a timeout or connection error. -/
inductive ReqResult
  | status (code : Nat)
  | exn
deriving DecidableEq, Repr

/-- One calendar day of the fetch range, given by the two `strftime`
renderings `download_reports` uses. -/
structure FetchDay where
  ymd : String
  mY : String
deriving DecidableEq, Repr

/-- The primary URL form, with the month/year subdirectory. -/
def primaryURL (URLtemplate fntemplate : String) (d : FetchDay) : String :=
  URLtemplate ++ d.mY ++ "/" ++ fntemplate ++ d.ymd ++ ".xlsx"

/-- The fallback URL form, without the month/year subdirectory. -/
def fallbackURL (URLtemplate fntemplate : String) (d : FetchDay) : String :=
  URLtemplate ++ fntemplate ++ d.ymd ++ ".xlsx"

/-- The target file name for one day. -/
def outName (fntemplate : String) (d : FetchDay) : String :=
  fntemplate ++ d.ymd ++ ".xlsx"

/-- The per-date loop of `download_reports` (lines 39 to 61): `net` gives the
outcome of each `requests.get`, `existsF` whether a target file is already on
disk.  Accumulates the written file names and `lastdate`.  The `requests.get`
calls stand in no try/except block, so a raised request exception leaves the
loop and propagates out of the function. -/
def downloadLoop (net : String → ReqResult) (existsF : String → Bool)
    (URLtemplate fntemplate : String) (overwrite : Bool) :
    List FetchDay → Option String → List String →
    Except PyError (Option String × List String)
  | [], lastdate, written => .ok (lastdate, written)
  | d :: rest, lastdate, written =>
    if existsF (outName fntemplate d) && !overwrite then
      downloadLoop net existsF URLtemplate fntemplate overwrite rest lastdate written
    else
      match net (primaryURL URLtemplate fntemplate d) with
      | .exn => .error .requestException
      | .status c =>
        if c == 200 then
          downloadLoop net existsF URLtemplate fntemplate overwrite rest
            (some d.ymd) (written ++ [outName fntemplate d])
        else
          match net (fallbackURL URLtemplate fntemplate d) with
          | .exn => .error .requestException
          | .status c2 =>
            if c2 == 200 then
              downloadLoop net existsF URLtemplate fntemplate overwrite rest
                (some d.ymd) (written ++ [outName fntemplate d])
            else
              downloadLoop net existsF URLtemplate fntemplate overwrite rest
                lastdate written

/-- `download_reports` (lines 32 to 62): run the loop over the date range and
return `lastdate`, or the exception that aborted the run. -/
def download_reports (net : String → ReqResult) (existsF : String → Bool)
    (URLtemplate fntemplate : String) (overwrite : Bool) (days : List FetchDay) :
    Except PyError (Option String) :=
  (downloadLoop net existsF URLtemplate fntemplate overwrite days none []).map
    (fun p => p.1)

/-! ### Dataframes with named columns, for the in-place stages and the
legacy loader -/

/-- A dataframe cell: a string, a rational number, an integer, a datetime, or
NaN. -/
inductive Cell
  | s (v : String)
  | q (v : ℚ)
  | i (v : Int)
  | date (y m d : Int)
  | na
deriving DecidableEq, Repr

/-- A row as an ordered association of column names to cells. -/
abbrev DRow := List (String × Cell)

/-- Reading the cell of one column of a row. -/
def getCol (r : DRow) (c : String) : Option Cell :=
  (r.find? (fun p => p.1 == c)).map (fun p => p.2)

/-- Column assignment for one row: overwrite the existing column in place, or
append a new column at the end. -/
def setCol (r : DRow) (c : String) (v : Cell) : DRow :=
  if r.any (fun p => p.1 == c) then
    r.map (fun p => if p.1 == c then (c, v) else p)
  else r ++ [(c, v)]

/-- An in-place column rename for one row. -/
def renameCol (r : DRow) (old new : String) : DRow :=
  r.map (fun p => if p.1 == old then (new, p.2) else p)

/-- An in-place column drop for one row. -/
def dropCol (r : DRow) (c : String) : DRow :=
  r.filter (fun p => !(p.1 == c))

/-- Dropping several columns of one row. -/
def dropCols (r : DRow) (cs : List String) : DRow :=
  cs.foldl (fun acc c => dropCol acc c) r

/-- `reformat_newdata` (lines 153 to 160) acting on one row of the
Zone-aggregated table: assign Year, Month and Day extracted from the
datetime `reportdate` cell, rename the zone-code column to ProtectionUnit and
drop the zone-label column.  `none` models the pandas error raised by
`.dt.year` when `reportdate` is not a datetime. -/
def reformat_newdata_row (r : DRow) : Option DRow :=
  match getCol r "reportdate" with
  | some (.date y m d) =>
    let r1 := setCol r "Year" (.i y)
    let r2 := setCol r1 "Month" (.i m)
    let r3 := setCol r2 "Day" (.i d)
    let r4 := renameCol r3 "Protecting Office Label" "ProtectionUnit"
    some (dropCol r4 "Protecting Office")
  | _ => none

/-- The whole-table effect of `reformat_newdata`.  Every step is in-place
(column assignments and the rename and drop calls pass inplace=True), so the
returned table is the caller's argument object after mutation. -/
def reformat_newdata : List DRow → Option (List DRow)
  | [] => some []
  | r :: rs =>
    match reformat_newdata_row r, reformat_newdata rs with
    | some r2, some rs2 => some (r2 :: rs2)
    | _, _ => none

/-- The state of the caller's dataframe after `reformat_newdata` returns:
identical to the returned table, because the function mutated its argument in
place throughout. -/
def reformat_newdata_argAfter (t : List DRow) : Option (List DRow) :=
  reformat_newdata t

/-- The state of the caller's dataframe after `olddata_to_daily` returns:
line 148 drops four columns of the argument in place; the later groupby
rebinds only the function-local name, leaving the caller's object with the
columns removed. -/
def olddata_to_daily_argAfter (t : List DRow) : List DRow :=
  t.map (fun r => dropCols r ["Month", "Day", "TotalFires", "ProtectionUnit"])

/-! ### `add_psa` (lines 96 to 113) -/

/-- A PSA polygon feature: its attribute columns plus a geometry of abstract
type `P`, tested only through a point-in-polygon predicate (the float
geometry engine is outside the embedding; the join logic is modelled). -/
structure PSAFeature (P : Type) where
  psaName : String
  natCode : String
  gacc : String
  fid : Nat
  geom : P

/-- `gp.sjoin(left, right, predicate='within', how='inner')` row set: one
output row per pair of a left record and a polygon containing its point
(built from the Longitude/Latitude columns by `gdf_from_df`). -/
def sjoin_within {P : Type} (left : List UpdateRow) (right : List (PSAFeature P))
    (within : ℚ × ℚ → P → Bool) : List (UpdateRow × PSAFeature P) :=
  left.flatMap (fun r =>
    (right.filter (fun p => within (r.longitude, r.latitude) p.geom)).map
      (fun p => (r, p)))

/-- One row of the `add_psa` output after dropping the join bookkeeping
column and the GACC and ID attribute columns. -/
structure JoinedRow where
  updateRow : UpdateRow
  psaName : String
  natCode : String
deriving DecidableEq, Repr

/-- `add_psa` (lines 106 to 113): spatial inner join of the updates with the
PSA layer, keeping PSA_NAME and NAT_CODE. -/
def add_psa {P : Type} (records : List UpdateRow) (psaLayer : List (PSAFeature P))
    (within : ℚ × ℚ → P → Bool) : List JoinedRow :=
  (sjoin_within records psaLayer within).map
    (fun p => ⟨p.1, p.2.psaName, p.2.natCode⟩)

/-! ### `assemble_dataframe` (lines 75 to 94) -/

/-- One row of a downloaded situation-report Excel file. -/
structure ExcelRow where
  objectid : Nat
  protectingOffice : Option String
  latitude : ℚ
  longitude : ℚ
  acres : Option ℚ
deriving DecidableEq, Repr

/-- A file in the reports directory: its filename stem and its rows. -/
structure ReportFile where
  stem : String
  rows : List ExcelRow
deriving DecidableEq, Repr

/-- Whether a file matches the glob pattern of the filename template followed
by a wildcard. -/
def stemMatches (fntemplate : String) (f : ReportFile) : Bool :=
  fntemplate.toList.isPrefixOf f.stem.toList

/-- `fp.stem[-8:]`: the date stamp embedded in the file name. -/
def last8 (s : String) : String :=
  String.mk (s.toList.drop (s.toList.length - 8))

/-- An assembled row before zone normalization: tagged with its report date,
the OBJECTID column dropped. -/
structure PreRow where
  reportdate : String
  protectingOffice : Option String
  latitude : ℚ
  longitude : ℚ
  acres : Option ℚ
deriving DecidableEq, Repr

/-- Loading one report file: tag every row with the file's date stamp and
drop the OBJECTID column. -/
def tagFile (f : ReportFile) : List PreRow :=
  f.rows.map (fun r => ⟨last8 f.stem, r.protectingOffice, r.latitude, r.longitude, r.acres⟩)

/-- The sort order of `sort_values(['reportdate'])` on the date stamps. -/
def preR : PreRow → PreRow → Prop :=
  fun a b => strVal a.reportdate ≤ strVal b.reportdate

instance : DecidableRel preR :=
  fun a b => decidable_of_iff (strVal a.reportdate ≤ strVal b.reportdate) Iff.rfl

/-- The zone-normalization columns of `assemble_dataframe` applied to one
assembled row. -/
def normalizeRow (r : PreRow) : UpdateRow :=
  let z := normalizeOffice r.protectingOffice
  ⟨r.reportdate, z.1, z.2, r.latitude, r.longitude, r.acres⟩

/-- `assemble_dataframe` (lines 75 to 94): glob the files matching the
template, tag each file's rows with its date stamp and drop OBJECTID,
concatenate (`pd.concat` raises ValueError on an empty list of frames), sort
by report date, and add the normalized zone columns. -/
def assemble_dataframe (datadir : List ReportFile) (fntemplate : String) :
    Except PyError (List UpdateRow) :=
  let results := (datadir.filter (stemMatches fntemplate)).map tagFile
  if results.isEmpty then .error .valueErrorNoObjects
  else
    .ok ((results.flatten.insertionSort preR).map normalizeRow)

/-! ### `load_old_data` (lines 127 to 144) -/

/-- The columns of a table (pandas keeps one shared schema; the first row's
columns stand for it). -/
def colNames (t : List DRow) : List String :=
  ((t.head?).getD []).map (fun p => p.1)

/-- Whether some row of a column holds NaN. -/
def colHasNA (t : List DRow) (c : String) : Bool :=
  t.any (fun r => getCol r c == some Cell.na)

/-- `astype(int)` on one cell: floats are truncated toward zero. -/
def cellToInt : Cell → Option Cell
  | .q v => some (.i (v.num / (v.den : Int)))
  | .i v => some (.i v)
  | _ => none

/-- `astype(int)` on one column of a table; `none` models the conversion
error on non-numeric data. -/
def colToInt (t : List DRow) (c : String) : Option (List DRow) :=
  t.mapM (fun r =>
    match getCol r c with
    | some cell => (cellToInt cell).map (fun v => setCol r c v)
    | none => some r)

/-- The integer-coercion loop of `load_old_data` (lines 134 to 139): for each
candidate column, drop it when it holds any NaN, otherwise coerce it to
integer type. -/
def coerceIntCols (t : List DRow) : List String → Option (List DRow)
  | [] => some t
  | c :: cs =>
    if colHasNA t c then
      coerceIntCols (t.map (fun r => dropCol r c)) cs
    else
      match colToInt t c with
      | some t2 => coerceIntCols t2 cs
      | none => none

/-- Building the `reportdate` cell of one row from its Year, Month and Day
integer cells, as `pd.to_datetime` does. -/
def makeReportdate (r : DRow) : Option DRow :=
  match getCol r "Year", getCol r "Month", getCol r "Day" with
  | some (.i y), some (.i m), some (.i d) => some (setCol r "reportdate" (.date y m d))
  | _, _, _ => none

/-- The body of `load_old_data` after the file has been read (lines 131 to
144): drop index artifacts and the legacy ID column, coerce all-present
integer columns, rename FireSeason to Year, synthesize `reportdate`, drop
SitReportDate and rename TotalAcres to Acres. -/
def transformOldData (t : List DRow) : Option (List DRow) := do
  let dropcols := (colNames t).filter (fun c => "Unname".toList.isPrefixOf c.toList)
  let t1 := t.map (fun r => dropCols r (dropcols ++ ["ID"]))
  let intcols := (colNames t1).filter
    (fun c => !(c == "TotalAcres") && !(c == "ProtectionUnit") && !(c == "SitReportDate"))
  let t2 ← coerceIntCols t1 intcols
  let t3 := t2.map (fun r => renameCol r "FireSeason" "Year")
  let t4 ← t3.mapM makeReportdate
  let t5 := t4.map (fun r => dropCol r "SitReportDate")
  some (t5.map (fun r => renameCol r "TotalAcres" "Acres"))

/-- `load_old_data` (lines 127 to 144): `fs` models the filesystem, giving
for a path the parsed content of the CSV (with the 2 metadata rows already
skipped) when the file exists.  The existence check comes first and raises
`FileNotFoundError` for a missing file before anything is read. -/
def load_old_data (fs : String → Option (List DRow)) (olddatafp : String) :
    Except PyError (List DRow) :=
  match fs olddatafp with
  | none => .error (.fileNotFound olddatafp)
  | some content =>
    match transformOldData content with
    | some t => .ok t
    | none => .error .typeError

/-! ## Helper lemmas -/

theorem seqKey_map_some (l : List String) : seqKey (l.map some) = some l := by
  induction l with
  | nil => rfl
  | cons a l ih => simp [seqKey, ih]

theorem normalizeOffice_unknown (s : String)
    (h1 : officeLookup (codeCandidate s) = none)
    (h2 : officeLookup s = none)
    (h3 : revLookup s = none) :
    normalizeOffice (some s) = (s, none) := by
  simp [normalizeOffice, extract_zone, h1, h2, h3]

theorem mem_sjoin_within {P : Type} (records : List UpdateRow)
    (psaLayer : List (PSAFeature P)) (within : ℚ × ℚ → P → Bool)
    (a : UpdateRow) (p : PSAFeature P) :
    (a, p) ∈ sjoin_within records psaLayer within ↔
      a ∈ records ∧ p ∈ psaLayer ∧ within (a.longitude, a.latitude) p.geom = true := by
  simp only [sjoin_within, List.mem_flatMap, List.mem_map, List.mem_filter,
    Prod.mk.injEq]
  constructor
  · rintro ⟨x, hx, q, ⟨hq, hw⟩, rfl, rfl⟩
    exact ⟨hx, hq, hw⟩
  · rintro ⟨ha, hp, hw⟩
    exact ⟨a, ha, p, ⟨hp, hw⟩, rfl, rfl⟩

theorem validKeys_cons_invalid (r : KRow) (rows : List KRow)
    (h : seqKey r.key = none) : validKeys (r :: rows) = validKeys rows := by
  simp [validKeys, h]

theorem groupSum_cons_invalid (r : KRow) (rows : List KRow) (k : List String)
    (h : seqKey r.key = none) : groupSum (r :: rows) k = groupSum rows k := by
  simp [groupSum, List.filter_cons, h]

theorem aggCore_cons_invalid (r : KRow) (rows : List KRow)
    (h : seqKey r.key = none) : aggCore (r :: rows) = aggCore rows := by
  have hk : groupKeys (r :: rows) = groupKeys rows := by
    unfold groupKeys
    rw [validKeys_cons_invalid r rows h]
  have hgs : groupbySum (r :: rows) = groupbySum rows := by
    unfold groupbySum
    rw [hk]
    exact List.map_congr_left (fun k _ => by rw [groupSum_cons_invalid r rows k h])
  unfold aggCore
  rw [hgs]

theorem aggregate_zone_eq (rows : List KRow) :
    aggregate_by_day_region rows "Zone" = ⟨[], .ok (aggCore rows)⟩ := rfl

theorem replaceZero_cons (k : List String) (v : ℚ) (t : List (List String × ℚ)) :
    replaceZero ((k, v) :: t) =
      (k, if v = 0 then none else some v) :: replaceZero t := rfl

theorem dropnaRows_cons_none (k : List String)
    (t : List (List String × Option ℚ)) :
    dropnaRows ((k, none) :: t) = dropnaRows t := rfl

theorem dropnaRows_cons_some (k : List String) (q : ℚ)
    (t : List (List String × Option ℚ)) :
    dropnaRows ((k, some q) :: t) =
      KRow.mk (k.map some) (some q) :: dropnaRows t := rfl

theorem pipeline_eq (g : List String → ℚ) :
    ∀ ks : List (List String),
      dropnaRows (replaceZero (ks.map (fun k => (k, g k)))) =
        (ks.filter (fun k => decide (g k ≠ 0))).map
          (fun k => KRow.mk (k.map some) (some (g k)))
  | [] => rfl
  | k :: ks => by
    have ih := pipeline_eq g ks
    rw [List.map_cons, replaceZero_cons]
    by_cases h : g k = 0
    · rw [if_pos h, dropnaRows_cons_none, ih, List.filter_cons]
      simp [h]
    · rw [if_neg h, dropnaRows_cons_some, ih, List.filter_cons]
      simp [h]

theorem aggCore_eq (rows : List KRow) :
    aggCore rows =
      ((groupKeys rows).filter (fun k => decide (groupSum rows k ≠ 0))).map
        (fun k => KRow.mk (k.map some) (some (groupSum rows k))) := by
  unfold aggCore groupbySum
  exact pipeline_eq (groupSum rows) (groupKeys rows)

theorem groupKeys_nodup (rows : List KRow) : (groupKeys rows).Nodup :=
  ((List.perm_insertionSort keyR ((validKeys rows).dedup)).nodup_iff).mpr
    (List.nodup_dedup (validKeys rows))

theorem groupKeys_sorted (rows : List KRow) : (groupKeys rows).Sorted keyR :=
  List.sorted_insertionSort keyR ((validKeys rows).dedup)

theorem validKeys_aggCore (rows : List KRow) :
    validKeys (aggCore rows) =
      (groupKeys rows).filter (fun k => decide (groupSum rows k ≠ 0)) := by
  rw [aggCore_eq]
  simp [validKeys, List.filterMap_map, Function.comp_def, seqKey_map_some]

theorem groupKeys_aggCore (rows : List KRow) :
    groupKeys (aggCore rows) =
      (groupKeys rows).filter (fun k => decide (groupSum rows k ≠ 0)) := by
  unfold groupKeys
  rw [validKeys_aggCore,
    List.dedup_eq_self.mpr ((groupKeys_nodup rows).filter _)]
  exact ((groupKeys_sorted rows).filter _).insertionSort_eq

theorem filter_eq_single_of_nodup {α : Type} [DecidableEq α] :
    ∀ (l : List α), l.Nodup → ∀ k ∈ l, l.filter (fun x => decide (x = k)) = [k]
  | [], _, k, hk => absurd hk (List.not_mem_nil k)
  | a :: l, hnd, k, hk => by
    obtain ⟨ha, hl⟩ := List.nodup_cons.mp hnd
    rcases List.mem_cons.mp hk with rfl | hk2
    · have : l.filter (fun x => decide (x = k)) = [] :=
        List.filter_eq_nil_iff.mpr (fun x hx => by
          simp only [decide_eq_true_eq]
          exact fun he => ha (he ▸ hx))
      simp [List.filter_cons, this]
    · have hne : a ≠ k := fun he => ha (he ▸ hk2)
      simp [List.filter_cons, hne, filter_eq_single_of_nodup l hl k hk2]

theorem groupSum_map_mk (g : List String → ℚ) (l : List (List String))
    (hnd : l.Nodup) (k : List String) (hk : k ∈ l) :
    groupSum (l.map (fun k2 => KRow.mk (k2.map some) (some (g k2)))) k = g k := by
  unfold groupSum
  rw [List.filter_map]
  have hpred : ∀ x ∈ l, ((fun r : KRow => decide (seqKey r.key = some k)) ∘
      (fun k2 => KRow.mk (k2.map some) (some (g k2)))) x = decide (x = k) := by
    intro x _
    simp [Function.comp_def, seqKey_map_some]
  rw [List.filter_congr hpred, filter_eq_single_of_nodup l hnd k hk]
  simp

theorem groupSum_aggCore (rows : List KRow) (k : List String)
    (hk : k ∈ groupKeys rows) (hnz : groupSum rows k ≠ 0) :
    groupSum (aggCore rows) k = groupSum rows k := by
  rw [aggCore_eq]
  exact groupSum_map_mk (groupSum rows) _ ((groupKeys_nodup rows).filter _) k
    (List.mem_filter.mpr ⟨hk, by simpa using hnz⟩)

theorem aggCore_idem (rows : List KRow) : aggCore (aggCore rows) = aggCore rows := by
  conv_lhs => rw [aggCore_eq (aggCore rows)]
  rw [groupKeys_aggCore]
  have hmem : ∀ k ∈ (groupKeys rows).filter (fun k => decide (groupSum rows k ≠ 0)),
      groupSum (aggCore rows) k = groupSum rows k := by
    intro k hk
    obtain ⟨hk1, hk2⟩ := List.mem_filter.mp hk
    exact groupSum_aggCore rows k hk1 (by simpa using hk2)
  rw [List.filter_congr (fun k hk => by rw [hmem k hk])]
  rw [List.filter_eq_self.mpr (fun k hk => (List.mem_filter.mp hk).2)]
  rw [List.map_congr_left (fun k hk => by rw [hmem k hk])]
  exact (aggCore_eq rows).symm

theorem getCol_dropCol_self (r : DRow) (c : String) :
    getCol (dropCol r c) c = none := by
  induction r with
  | nil => rfl
  | cons p r ih =>
    by_cases h : p.1 == c
    · simpa [dropCol, List.filter_cons, h] using ih
    · simp [dropCol, getCol, List.filter_cons, List.find?_cons, h]

theorem getCol_dropCol_ne (r : DRow) (c c2 : String) (h : ¬ c2 = c) :
    getCol (dropCol r c2) c = getCol r c := by
  induction r with
  | nil => rfl
  | cons p r ih =>
    by_cases hp : p.1 == c2
    · have hpc : ¬ (p.1 == c) = true := by
        have he : p.1 = c2 := by simpa using hp
        simp [he, h]
      simp only [dropCol, List.filter_cons, hp] at *
      simpa [getCol, List.find?_cons, hpc] using ih
    · by_cases hc : p.1 == c
      · simp [dropCol, List.filter_cons, hp, getCol, List.find?_cons, hc]
      · simp only [dropCol, List.filter_cons, hp] at *
        simpa [getCol, List.find?_cons, hc] using ih

theorem getCol_dropCols_legacy (q : DRow) :
    getCol (dropCols q ["Month", "Day", "TotalFires", "ProtectionUnit"]) "Month" =
      none := by
  show getCol
    (dropCol (dropCol (dropCol (dropCol q "Month") "Day") "TotalFires")
      "ProtectionUnit") "Month" = none
  rw [getCol_dropCol_ne _ _ _ (by decide), getCol_dropCol_ne _ _ _ (by decide),
    getCol_dropCol_ne _ _ _ (by decide)]
  exact getCol_dropCol_self q "Month"

theorem reformat_row_drops_po (r r2 : DRow)
    (h : reformat_newdata_row r = some r2) :
    getCol r2 "Protecting Office" = none := by
  unfold reformat_newdata_row at h
  split at h
  · simp only [Option.some.injEq] at h
    subst h
    exact getCol_dropCol_self _ _
  · simp at h

theorem map_eq_self_mem {α : Type} (f : α → α) :
    ∀ l : List α, l.map f = l → ∀ a ∈ l, f a = a
  | [], _, a, ha => absurd ha (List.not_mem_nil a)
  | x :: l, h, a, ha => by
    rw [List.map_cons, List.cons.injEq] at h
    rcases List.mem_cons.mp ha with rfl | ha2
    · exact h.1
    · exact map_eq_self_mem f l h.2 a ha2

theorem reformat_eq_self_mem :
    ∀ t : List DRow, reformat_newdata t = some t →
      ∀ r ∈ t, reformat_newdata_row r = some r
  | [], _, r, hr => absurd hr (List.not_mem_nil r)
  | x :: t, h, r, hr => by
    unfold reformat_newdata at h
    cases hx : reformat_newdata_row x with
    | none => rw [hx] at h; simp at h
    | some x2 =>
      cases ht : reformat_newdata t with
      | none => rw [hx, ht] at h; simp at h
      | some t2 =>
        rw [hx, ht] at h
        simp only [Option.some.injEq, List.cons.injEq] at h
        obtain ⟨h1, h2⟩ := h
        rcases List.mem_cons.mp hr with rfl | hr2
        · rw [hx, h1]
        · exact reformat_eq_self_mem t (h2 ▸ ht) r hr2

/-! ## Claim theorems -/

/-- C9: when the raw protecting-office text contains no opening parenthesis,
`extract_zone` takes the first three characters of the text as the code
candidate, and a known code there is resolved to its canonical zone name. -/
theorem extract_zone_first_three (s name : String)
    (hp : parenIdx s = none)
    (hc : officeLookup (String.mk (s.toList.take 3)) = some name) :
    extract_zone s = name := by
  have hcand : codeCandidate s = String.mk (s.toList.take 3) := by
    simp [codeCandidate, hp]
  unfold extract_zone
  rw [hcand, hc]

/-- C9 witness: the bare code UYD carries no parenthesis yet normalizes to
Upper Yukon Zone. -/
theorem extract_zone_first_three_witness :
    parenIdx "UYD" = none ∧
      officeLookup (String.mk ("UYD".toList.take 3)) = some "Upper Yukon Zone" ∧
      extract_zone "UYD" = "Upper Yukon Zone" :=
  ⟨by decide, by decide,
    extract_zone_first_three "UYD" "Upper Yukon Zone" (by decide) (by decide)⟩

/-- C1: evaluated at an unrecognized region mode, `aggregate_by_day_region`
prints the actionable message listing the valid options, but then raises
`UnboundLocalError` instead of aborting cleanly: the except branch falls
through to a use of the never-assigned local `dailyarea_agg`. -/
theorem aggregate_unknown_region_crashes :
    aggregate_by_day_region [] "County" =
      ⟨["Grouping by County is unknown. Try one of : PSA, Zone"],
        .error .unboundLocal⟩ := by
  decide

/-- C2 counterexample: an unrecognized arbitrary string passes through
unchanged as the zone label, but the zone code label becomes NaN, not the raw
string. -/
theorem normalize_unknown_cex :
    normalizeOffice (some "Mystery Office") = ("Mystery Office", none) ∧
      (normalizeOffice (some "Mystery Office")).2 ≠ some "Mystery Office" :=
  ⟨by decide, by decide⟩

/-- C2 amended: a raw protecting-office string with no known parenthesized
code that is neither a known code nor a known canonical label is retained
unchanged as the normalized zone label, while the zone code label becomes
missing (NaN). -/
theorem normalize_unknown_label_na (s : String)
    (h1 : officeLookup (codeCandidate s) = none)
    (h2 : officeLookup s = none)
    (h3 : revLookup s = none) :
    normalizeOffice (some s) = (s, none) :=
  normalizeOffice_unknown s h1 h2 h3

/-- C2 witness. -/
theorem normalize_unknown_label_na_witness :
    officeLookup (codeCandidate "Mystery Office") = none ∧
      officeLookup "Mystery Office" = none ∧
      revLookup "Mystery Office" = none ∧
      normalizeOffice (some "Mystery Office") = ("Mystery Office", none) :=
  ⟨by decide, by decide, by decide,
    normalize_unknown_label_na "Mystery Office" (by decide) (by decide) (by decide)⟩

/-- C4 counterexample: a raised request exception for the very first date
propagates out of `download_reports` and aborts the whole run, instead of
being caught and logged. -/
theorem download_netfail_cex :
    download_reports (fun _ => ReqResult.exn) (fun _ => false) "U/" "f_" false
      [⟨"20250601", "06_2025"⟩] = .error .requestException := by
  decide

/-- C4 amended: `requests.get` stands in no try/except, so a network-level
request exception for a date that is actually fetched propagates as an
exception aborting the whole run; only non-200 statuses are handled by the
fallback and the failed-day skip. -/
theorem download_netfail_propagates (net : String → ReqResult)
    (existsF : String → Bool) (URLtemplate fntemplate : String)
    (overwrite : Bool) (d : FetchDay) (rest : List FetchDay)
    (hskip : existsF (outName fntemplate d) = false ∨ overwrite = true)
    (hexn : net (primaryURL URLtemplate fntemplate d) = .exn) :
    download_reports net existsF URLtemplate fntemplate overwrite (d :: rest) =
      .error .requestException := by
  unfold download_reports downloadLoop
  rcases hskip with h | h <;> simp [h, hexn, Except.map]

/-- C4 witness. -/
theorem download_netfail_propagates_witness :
    download_reports (fun _ => ReqResult.exn) (fun _ => false) "U/" "f_" false
      [⟨"20250601", "06_2025"⟩] = .error .requestException :=
  download_netfail_propagates _ _ _ _ _ _ _ (Or.inl rfl) rfl

/-- C8: with zero files matching the template, `assemble_dataframe` raises
the ValueError of concatenating no frames rather than returning an empty
table. -/
theorem assemble_empty_fails (datadir : List ReportFile) (fntemplate : String)
    (h : datadir.filter (stemMatches fntemplate) = []) :
    assemble_dataframe datadir fntemplate = .error .valueErrorNoObjects := by
  simp [assemble_dataframe, h]

/-- C8 witness: a directory holding only a non-matching file. -/
theorem assemble_empty_fails_witness :
    ([⟨"lightning_20250601", []⟩] : List ReportFile).filter
        (stemMatches "AK_SituationReportExport_") = [] ∧
      assemble_dataframe [⟨"lightning_20250601", []⟩] "AK_SituationReportExport_" =
        .error .valueErrorNoObjects :=
  ⟨by decide, assemble_empty_fails _ _ (by decide)⟩

/-- C10: for a path missing from the filesystem, `load_old_data` raises
`FileNotFoundError` before reading or transforming anything and never
returns a table. -/
theorem load_old_data_missing (fs : String → Option (List DRow)) (p : String)
    (h : fs p = none) :
    load_old_data fs p = .error (.fileNotFound p) := by
  simp [load_old_data, h]

/-- C10 witness. -/
theorem load_old_data_missing_witness :
    ((fun _ => none : String → Option (List DRow)) "old.csv" = none) ∧
      load_old_data (fun _ => none) "old.csv" = .error (.fileNotFound "old.csv") :=
  ⟨rfl, load_old_data_missing _ _ rfl⟩

/-- C7: the `add_psa` output holds exactly the input records whose point lies
within some PSA polygon; a record outside every polygon is absent, and its
presence in the input raises no error (the join is a total function). -/
theorem add_psa_membership {P : Type} (records : List UpdateRow)
    (psaLayer : List (PSAFeature P)) (within : ℚ × ℚ → P → Bool)
    (r : UpdateRow) :
    (∃ j ∈ add_psa records psaLayer within, j.updateRow = r) ↔
      (r ∈ records ∧
        ∃ p ∈ psaLayer, within (r.longitude, r.latitude) p.geom = true) := by
  constructor
  · rintro ⟨j, hj, rfl⟩
    simp only [add_psa, List.mem_map] at hj
    obtain ⟨⟨a, p⟩, hmem, rfl⟩ := hj
    obtain ⟨ha, hp, hw⟩ := (mem_sjoin_within records psaLayer within a p).mp hmem
    exact ⟨ha, p, hp, hw⟩
  · rintro ⟨hr, p, hp, hw⟩
    refine ⟨⟨r, p.psaName, p.natCode⟩, ?_, rfl⟩
    simp only [add_psa, List.mem_map]
    exact ⟨(r, p), (mem_sjoin_within records psaLayer within r p).mpr ⟨hr, hp, hw⟩, rfl⟩

/-- C3 counterexample: a record whose protecting-office text resolves to
neither a known code nor a known label survives normalization with its raw
label, yet Zone-mode aggregation of the one-record table produces no row at
all for its group: the grouping key holds a NaN code label and `groupby`
drops it. -/
theorem zone_agg_unresolved_cex :
    (normalizeRow ⟨"20250601", some "Mystery Office", 65, -147, some 5⟩).protectingOffice
        = "Mystery Office" ∧
      (aggregate_by_day_region
          [zoneKRow (normalizeRow ⟨"20250601", some "Mystery Office", 65, -147, some 5⟩)]
          "Zone").result = .ok [] :=
  ⟨by decide, by decide⟩

/-- C3 amended: such a record survives normalization with its raw label
retained, but its zone code label is NaN, so Zone-mode aggregation silently
removes it: adding the record to any table leaves the aggregate unchanged,
and in particular no (date, raw-label) row is produced for it. -/
theorem zone_agg_drops_unresolved (s : String) (r : PreRow)
    (h1 : officeLookup (codeCandidate s) = none)
    (h2 : officeLookup s = none)
    (h3 : revLookup s = none)
    (hr : r.protectingOffice = some s) :
    (normalizeRow r).protectingOffice = s ∧
      (normalizeRow r).protectingOfficeLabel = none ∧
      ∀ rows : List KRow,
        (aggregate_by_day_region (zoneKRow (normalizeRow r) :: rows) "Zone").result =
          (aggregate_by_day_region rows "Zone").result := by
  have hz : normalizeOffice r.protectingOffice = (s, none) := by
    rw [hr]
    exact normalizeOffice_unknown s h1 h2 h3
  have ho : (normalizeRow r).protectingOffice = s := by
    simp [normalizeRow, hz]
  have hl : (normalizeRow r).protectingOfficeLabel = none := by
    simp [normalizeRow, hz]
  refine ⟨ho, hl, fun rows => ?_⟩
  rw [aggregate_zone_eq, aggregate_zone_eq]
  simp only
  rw [aggCore_cons_invalid]
  simp [zoneKRow, hl, seqKey]

/-- C6: re-aggregating the output of `aggregate_by_day_region` with the same
region mode yields that output again: grouping by the full key, summing
Acres and dropping zero/missing rows is idempotent. -/
theorem aggregate_by_day_region_idem (rows : List KRow) (region : String)
    (out : List KRow)
    (h : (aggregate_by_day_region rows region).result = .ok out) :
    (aggregate_by_day_region out region).result = .ok out := by
  unfold aggregate_by_day_region at h ⊢
  cases hg : GROUPINGS region with
  | none => rw [hg] at h; simp at h
  | some g =>
    rw [hg] at h
    simp only [Except.ok.injEq] at h
    simp only [hg, Except.ok.injEq]
    rw [← h]
    exact aggCore_idem rows

/-- C6 witness. -/
theorem aggregate_by_day_region_idem_witness :
    (aggregate_by_day_region [KRow.mk [some "20250601", some "Mystery Office", none] (some 5)]
        "Zone").result = .ok ([] : List KRow) ∧
      (aggregate_by_day_region ([] : List KRow) "Zone").result = .ok ([] : List KRow) :=
  ⟨by decide,
    aggregate_by_day_region_idem
      [KRow.mk [some "20250601", some "Mystery Office", none] (some 5)] "Zone" []
      (by decide)⟩

/-- C3 witness. -/
theorem zone_agg_drops_unresolved_witness :
    officeLookup (codeCandidate "Mystery Office") = none ∧
      officeLookup "Mystery Office" = none ∧
      revLookup "Mystery Office" = none ∧
      ((normalizeRow ⟨"20250601", some "Mystery Office", 65, -147, some 5⟩).protectingOffice
          = "Mystery Office" ∧
        (normalizeRow ⟨"20250601", some "Mystery Office", 65, -147, some 5⟩).protectingOfficeLabel
          = none ∧
        ∀ rows : List KRow,
          (aggregate_by_day_region
              (zoneKRow (normalizeRow ⟨"20250601", some "Mystery Office", 65, -147, some 5⟩) :: rows)
              "Zone").result =
            (aggregate_by_day_region rows "Zone").result) :=
  ⟨by decide, by decide, by decide,
    zone_agg_drops_unresolved "Mystery Office" _ (by decide) (by decide) (by decide) rfl⟩

/-- C5 counterexample: `reformat_newdata` leaves the table passed to it
changed (its zone-label column is gone, Year/Month/Day were added in place),
and `olddata_to_daily` leaves its argument without four of its columns. -/
theorem stage_mutation_cex :
    reformat_newdata_argAfter
        [[("reportdate", Cell.date 2025 6 1), ("Protecting Office", Cell.s "Tok Area"),
          ("Protecting Office Label", Cell.s "TAS"), ("Acres", Cell.q 3)]] ≠
      some [[("reportdate", Cell.date 2025 6 1), ("Protecting Office", Cell.s "Tok Area"),
          ("Protecting Office Label", Cell.s "TAS"), ("Acres", Cell.q 3)]] ∧
      olddata_to_daily_argAfter
          [[("Year", Cell.i 2024), ("Month", Cell.i 7), ("Day", Cell.i 1),
            ("TotalFires", Cell.i 2), ("ProtectionUnit", Cell.s "TAS"),
            ("Acres", Cell.q 10)]] ≠
        [[("Year", Cell.i 2024), ("Month", Cell.i 7), ("Day", Cell.i 1),
          ("TotalFires", Cell.i 2), ("ProtectionUnit", Cell.s "TAS"),
          ("Acres", Cell.q 10)]] :=
  ⟨by decide, by decide⟩

/-- C5 amended: the aggregation and assembly stages return fresh tables, but
the historical-reshaping stages mutate the table passed to them in place:
after `reformat_newdata` the caller's table has lost its zone-label column,
and after `olddata_to_daily` the caller's table has lost its Month column. -/
theorem reshaping_stages_mutate (t u : List DRow) (r q : DRow) (v w : Cell)
    (hr : r ∈ t) (hv : getCol r "Protecting Office" = some v)
    (hq : q ∈ u) (hw : getCol q "Month" = some w) :
    reformat_newdata_argAfter t ≠ some t ∧
      olddata_to_daily_argAfter u ≠ u := by
  constructor
  · intro h
    have h1 := reformat_eq_self_mem t h r hr
    have h2 := reformat_row_drops_po r r h1
    rw [hv] at h2
    cases h2
  · intro h
    have h1 := map_eq_self_mem _ u h q hq
    have h2 := getCol_dropCols_legacy q
    rw [h1, hw] at h2
    cases h2

/-- C5 witness. -/
theorem reshaping_stages_mutate_witness :
    reformat_newdata_argAfter
        [[("reportdate", Cell.date 2025 7 2), ("Protecting Office", Cell.s "Galena Zone"),
          ("Protecting Office Label", Cell.s "GAD"), ("Acres", Cell.q 12)]] ≠
      some [[("reportdate", Cell.date 2025 7 2), ("Protecting Office", Cell.s "Galena Zone"),
          ("Protecting Office Label", Cell.s "GAD"), ("Acres", Cell.q 12)]] ∧
      olddata_to_daily_argAfter
          [[("Year", Cell.i 2023), ("Month", Cell.i 8), ("Day", Cell.i 4),
            ("TotalFires", Cell.i 1), ("ProtectionUnit", Cell.s "GAD"),
            ("Acres", Cell.q 7)]] ≠
        [[("Year", Cell.i 2023), ("Month", Cell.i 8), ("Day", Cell.i 4),
          ("TotalFires", Cell.i 1), ("ProtectionUnit", Cell.s "GAD"),
          ("Acres", Cell.q 7)]] :=
  reshaping_stages_mutate _ _
    [("reportdate", Cell.date 2025 7 2), ("Protecting Office", Cell.s "Galena Zone"),
      ("Protecting Office Label", Cell.s "GAD"), ("Acres", Cell.q 12)]
    [("Year", Cell.i 2023), ("Month", Cell.i 8), ("Day", Cell.i 4),
      ("TotalFires", Cell.i 1), ("ProtectionUnit", Cell.s "GAD"),
      ("Acres", Cell.q 7)]
    (Cell.s "Galena Zone") (Cell.i 8)
    (by decide) (by decide) (by decide) (by decide)

end FireTally
